import Mathlib

/-!
Shallow embedding of the video-mcp-server tool-dispatch layer
(src/video_mcp_server/server.py) and proofs about its claims.

External effects (subprocess runs, filesystem, network) are modelled as
oracle inputs: each external call site reads its outcome from an
environment record, and the dispatcher records which backend operations
it performs in a trace.  Python string operations are modelled by
structurally recursive functions over `List Char`, so that every
definition evaluates inside the kernel.
-/

namespace VideoMcp

/-! ## String helpers (models of Python str operations) -/

/-- Model of Python emptiness test on a string (`if s:` is `not isEmpty`). -/
def strIsEmpty (s : String) : Bool :=
  s.data.isEmpty

/-- Python truthiness of an optional string (`if api_key:`). -/
def pyTruthy : Option String → Bool
  | some s => !strIsEmpty s
  | none => false

/-- Drop whitespace from both ends of a character list. -/
def trimChars (l : List Char) : List Char :=
  ((l.dropWhile Char.isWhitespace).reverse.dropWhile Char.isWhitespace).reverse

/-- Model of Python `s.strip()`. -/
def pyStrip (s : String) : String :=
  String.mk (trimChars s.data)

/-- Split a character list on a separator character; the result always
has one more piece than there are separators, as in Python `split`. -/
def splitOnChar (c : Char) : List Char → List (List Char)
  | [] => [[]]
  | a :: rest =>
    let r := splitOnChar c rest
    if a = c then [] :: r
    else
      match r with
      | [] => [[a]]
      | h :: t => (a :: h) :: t

/-- Model of Python `s.startswith(p)`. -/
def strStartsWith (s p : String) : Bool :=
  p.data.isPrefixOf s.data

/-- Model of Python `s.endswith(p)`. -/
def strEndsWith (s p : String) : Bool :=
  p.data.isSuffixOf s.data

/-- Model of Python slicing `s[:n]`. -/
def pyTake (n : ℕ) (s : String) : String :=
  String.mk (s.data.take n)

/-- Model of Python `sep.join(items)`. -/
def joinWith (sep : String) : List String → String
  | [] => ""
  | [x] => x
  | x :: y :: xs => x ++ sep ++ joinWith sep (y :: xs)

/-- Lexicographic comparison of character lists by code point, the
order Python string comparison uses. -/
def charListLe : List Char → List Char → Bool
  | [], _ => true
  | _ :: _, [] => false
  | a :: as, b :: bs => if a = b then charListLe as bs else decide (a < b)

/-- Model of Python string `<=`. -/
def pyStrLe (a b : String) : Bool :=
  charListLe a.data b.data

/-- Fold decimal digit characters into a natural number. -/
def digitsToNat (l : List Char) : ℕ :=
  l.foldl (fun n c => 10 * n + (c.toNat - 48)) 0

/-- Model of Python `float(s)` on an unsigned decimal literal
(`digits`, `digits.digits`, `digits.`, `.digits`); `none` models the
`ValueError` raised on any other input. -/
def parseUnsignedDecimal (l : List Char) : Option ℚ :=
  let intPart := l.takeWhile Char.isDigit
  let rest := l.dropWhile Char.isDigit
  match rest with
  | [] => if intPart.isEmpty then none else some (digitsToNat intPart : ℚ)
  | '.' :: fracRest =>
    let fracPart := fracRest.takeWhile Char.isDigit
    let rest2 := fracRest.dropWhile Char.isDigit
    if rest2.isEmpty && (!intPart.isEmpty || !fracPart.isEmpty) then
      some ((digitsToNat intPart : ℚ) + (digitsToNat fracPart : ℚ) / (10 ^ fracPart.length))
    else none
  | _ => none

/-- Model of Python `float(s)`: optional sign, then a decimal literal. -/
def parsePyFloat (s : String) : Option ℚ :=
  match s.data with
  | '-' :: rest => (parseUnsignedDecimal rest).map (fun q => -q)
  | '+' :: rest => parseUnsignedDecimal rest
  | l => parseUnsignedDecimal l

/-- Model of Python `int(s)`: optional sign, then nonempty digits
(after stripping surrounding whitespace). -/
def parsePyInt (s : String) : Option Int :=
  match (pyStrip s).data with
  | '-' :: rest =>
    if rest ≠ [] && rest.all Char.isDigit then some (-(digitsToNat rest : Int)) else none
  | '+' :: rest =>
    if rest ≠ [] && rest.all Char.isDigit then some (digitsToNat rest : Int) else none
  | l =>
    if l ≠ [] && l.all Char.isDigit then some (digitsToNat l : Int) else none

/-- Model of `pathlib.Path(p).name`: the component after the last slash. -/
def pathName (p : String) : String :=
  String.mk (((splitOnChar '/' p.data).getLast?).getD [])

/-- Model of `pathlib.Path(p).stem`: the name with its last suffix
removed, where a suffix needs a dot at index `0 < i < len - 1`. -/
def pathStem (p : String) : String :=
  let cs := (pathName p).data
  let i := (cs.length - 1) - cs.reverse.indexOf '.'
  if cs.contains '.' ∧ 0 < i ∧ i < cs.length - 1 then String.mk (cs.take i)
  else String.mk cs

/-- Model of `os.path.join(dir, f)` for a nonempty relative `f`. -/
def pathJoin (dir f : String) : String :=
  if strIsEmpty dir then f
  else if strEndsWith dir "/" then dir ++ f
  else dir ++ "/" ++ f

/-- Round a rational to the nearest integer, ties to even
(the rounding used by Python float formatting). -/
def roundHalfEven (q : ℚ) : Int :=
  let f : Int := Int.floor q
  let r : ℚ := q - f
  if r < 1/2 then f
  else if 1/2 < r then f + 1
  else if f % 2 = 0 then f else f + 1

/-- Left-pad a string with zeros to the given length. -/
def padZeros (n : ℕ) (s : String) : String :=
  if s.length < n then String.mk (List.replicate (n - s.length) '0') ++ s else s

/-- Model of Python fixed-point formatting `format(q, ".<prec>f")`. -/
def fmtFixed (prec : ℕ) (q : ℚ) : String :=
  let n := roundHalfEven (q * (10 : ℚ) ^ prec)
  let a := n.natAbs
  let ip := a / 10 ^ prec
  let fp := a % 10 ^ prec
  (if n < 0 then "-" else "") ++ toString ip ++ "." ++ padZeros prec (toString fp)

/-- Group reversed digit characters in threes with commas. -/
def groupThousandsAux : List Char → List Char
  | a :: b :: c :: d :: rest => a :: b :: c :: ',' :: groupThousandsAux (d :: rest)
  | l => l

/-- Model of Python thousands-separated integer formatting `f"{n:,}"`. -/
def fmtComma (n : Int) : String :=
  (if n < 0 then "-" else "") ++
    String.mk ((groupThousandsAux (toString n.natAbs).data.reverse).reverse)

/-- Model of the enumerated list rendering
`"\n".join(f"  {i + 1}. {item}" for i, item in enumerate(items))`. -/
def numberedList (items : List String) : String :=
  joinWith "\n"
    (items.enum.map (fun p => "  " ++ toString (p.1 + 1) ++ ". " ++ p.2))

/-- Insert a string into a sorted list, keeping it sorted. -/
def sortedInsert (x : String) : List String → List String
  | [] => [x]
  | y :: ys => if pyStrLe x y then x :: y :: ys else y :: sortedInsert x ys

/-- Model of Python `sorted()` on a list of strings. -/
def pySorted : List String → List String
  | [] => []
  | x :: xs => sortedInsert x (pySorted xs)

theorem charListLe_total (a b : List Char) :
    charListLe a b = true ∨ charListLe b a = true := by
  induction a generalizing b with
  | nil => left; rfl
  | cons x xs ih =>
    cases b with
    | nil => right; rfl
    | cons y ys =>
      by_cases hxy : x = y
      · subst hxy
        simp only [charListLe, if_pos rfl]
        exact ih ys
      · rcases lt_or_gt_of_ne hxy with h | h
        · left; simp [charListLe, hxy, h]
        · right
          have hyx : y ≠ x := fun hc => hxy hc.symm
          simp [charListLe, hyx, h]

theorem charListLe_trans {a b c : List Char}
    (h1 : charListLe a b = true) (h2 : charListLe b c = true) :
    charListLe a c = true := by
  induction a generalizing b c with
  | nil => rfl
  | cons x xs ih =>
    cases b with
    | nil => simp [charListLe] at h1
    | cons y ys =>
      cases c with
      | nil => simp [charListLe] at h2
      | cons z zs =>
        simp only [charListLe] at h1 h2 ⊢
        by_cases hxy : x = y
        · subst hxy
          rw [if_pos rfl] at h1
          by_cases hyz : x = z
          · subst hyz
            rw [if_pos rfl] at h2 ⊢
            exact ih h1 h2
          · rw [if_neg hyz] at h2 ⊢
            exact h2
        · rw [if_neg hxy] at h1
          have hx_lt_y : x < y := by simpa using h1
          by_cases hyz : y = z
          · subst hyz
            rw [if_neg hxy]
            simpa using hx_lt_y
          · rw [if_neg hyz] at h2
            have hy_lt_z : y < z := by simpa using h2
            have hx_lt_z : x < z := lt_trans hx_lt_y hy_lt_z
            rw [if_neg (ne_of_lt hx_lt_z)]
            simpa using hx_lt_z

theorem pyStrLe_trans {a b c : String}
    (h1 : pyStrLe a b = true) (h2 : pyStrLe b c = true) :
    pyStrLe a c = true :=
  charListLe_trans h1 h2

theorem pyStrLe_of_not_le {a b : String} (h : ¬ pyStrLe a b = true) :
    pyStrLe b a = true := by
  rcases charListLe_total a.data b.data with h1 | h1
  · exact absurd h1 h
  · exact h1

theorem mem_sortedInsert (a x : String) (l : List String) :
    a ∈ sortedInsert x l ↔ a = x ∨ a ∈ l := by
  induction l with
  | nil => simp [sortedInsert]
  | cons y ys ih =>
    simp only [sortedInsert]
    by_cases h : pyStrLe x y = true
    · rw [if_pos h]
      simp [List.mem_cons]
    · rw [if_neg h]
      simp only [List.mem_cons, ih]
      tauto

theorem sorted_sortedInsert (x : String) (l : List String)
    (h : l.Sorted (fun a b => pyStrLe a b = true)) :
    (sortedInsert x l).Sorted (fun a b => pyStrLe a b = true) := by
  induction l with
  | nil => simp [sortedInsert]
  | cons y ys ih =>
    rw [List.sorted_cons] at h
    simp only [sortedInsert]
    by_cases hxy : pyStrLe x y = true
    · rw [if_pos hxy, List.sorted_cons]
      refine ⟨?_, List.sorted_cons.mpr h⟩
      intro b hb
      rcases List.mem_cons.mp hb with rfl | hb
      · exact hxy
      · exact pyStrLe_trans hxy (h.1 b hb)
    · rw [if_neg hxy, List.sorted_cons]
      refine ⟨?_, ih h.2⟩
      intro b hb
      rcases (mem_sortedInsert b x ys).mp hb with rfl | hb
      · exact pyStrLe_of_not_le hxy
      · exact h.1 b hb

theorem sorted_pySorted (l : List String) :
    (pySorted l).Sorted (fun a b => pyStrLe a b = true) := by
  induction l with
  | nil => simp [pySorted]
  | cons x xs ih => exact sorted_sortedInsert x (pySorted xs) ih

/-! ## VideoProcessor (FFmpeg wrapper) -/

/-- Outcome of one `subprocess.run(..., capture_output=True, text=True)`. -/
structure ProbeResult where
  returncode : Int
  stdout : String
  deriving DecidableEq, Repr

/-- The metadata dictionary built by `VideoProcessor.get_video_info`. -/
structure VideoInfo where
  duration : ℚ
  width : Int
  height : Int
  codec : String
  path : String
  filename : String
  deriving DecidableEq, Repr

/-- Result of `get_video_info`: either the metadata dictionary or the
`{"error": ..., "path": ...}` dictionary produced by the
`except Exception` handler. -/
inductive InfoResult where
  | err (msg : String) (path : String)
  | ok (info : VideoInfo)
  deriving DecidableEq, Repr

/-- Whether an `InfoResult` is the error dictionary (`"error" in info`). -/
def InfoResult.isErr : InfoResult → Bool
  | .err _ _ => true
  | .ok _ => false

/-- `VideoProcessor.get_video_info`, with the three ffprobe subprocess
outcomes supplied as oracles.  Each probe step mirrors the source:
* duration: `float(stdout.strip()) if returncode == 0 else 0` — a
  zero-exit probe with unparsable stdout raises `ValueError`;
* size: parsed only when `returncode == 0 and "x" in stdout`, by
  unpacking `map(int, stdout.strip().split("x"))` into exactly two
  values — a parse or arity failure raises;
* codec: `stdout.strip() if returncode == 0 else "unknown"`.
A raised exception is caught by the outer `except` and returned as the
error dictionary. -/
def get_video_info (durP sizeP codecP : ProbeResult) (video_path : String) : InfoResult :=
  let durationE : Except String ℚ :=
    if durP.returncode = 0 then
      match parsePyFloat (pyStrip durP.stdout) with
      | some d => .ok d
      | none => .error ("could not convert string to float: " ++ pyStrip durP.stdout)
    else .ok 0
  match durationE with
  | .error e => .err e video_path
  | .ok duration =>
    let sizeE : Except String (Int × Int) :=
      if sizeP.returncode = 0 && sizeP.stdout.data.contains 'x' then
        match (splitOnChar 'x' (pyStrip sizeP.stdout).data).map
            (fun piece => parsePyInt (String.mk piece)) with
        | [some w, some h] => .ok (w, h)
        | _ => .error "invalid literal for int() or bad unpack"
      else .ok (0, 0)
    match sizeE with
    | .error e => .err e video_path
    | .ok (width, height) =>
      let codec := if codecP.returncode = 0 then pyStrip codecP.stdout else "unknown"
      .ok ⟨duration, width, height, codec, video_path, pathName video_path⟩

/-- `interval = duration / (num_frames + 1)` in `extract_frames`. -/
def frame_interval (duration : ℚ) (num_frames : ℕ) : ℚ :=
  duration / (num_frames + 1)

/-- The capture timestamps requested by `extract_frames`:
`timestamp = i * interval` for `i in range(1, num_frames + 1)`. -/
def frame_timestamps (duration : ℚ) (num_frames : ℕ) : List ℚ :=
  (List.range num_frames).map
    (fun (i : ℕ) => ((i : ℚ) + 1) * frame_interval duration num_frames)

/-- The timestamps `extract_frames` requests, given the metadata probe
outcome: empty when the probe errored (`"error" in info`) or when
`duration <= 0`, else the evenly spaced interior timestamps. -/
def extract_frames_requests (info : InfoResult) (num_frames : ℕ) : List ℚ :=
  match info with
  | .err _ _ => []
  | .ok i => if i.duration ≤ 0 then [] else frame_timestamps i.duration num_frames

/-- `VideoProcessor.split_video`, with the metadata probe outcome and
the post-command directory listing supplied as oracles.  Returns the
segment paths together with the segment time handed to the ffmpeg
segmenting command, or `none` when the command was never invoked.
Mirrors the source: early `[]` on probe error or `duration <= 0`;
otherwise run the command, list `output_dir`, keep files named
`{stem}_segment_*.mp4`, join them to `output_dir` and return
`sorted(segments)`. -/
def split_video (info : InfoResult) (listing : List String)
    (video_path : String) (segment_duration : Int) (output_dir : String) :
    List String × Option Int :=
  match info with
  | .err _ _ => ([], none)
  | .ok i =>
    if i.duration ≤ 0 then ([], none)
    else
      let base_name := pathStem video_path
      let segments := (listing.filter
          (fun f => strStartsWith f (base_name ++ "_segment_") && strEndsWith f ".mp4")).map
        (fun f => pathJoin output_dir f)
      (pySorted segments, some segment_duration)

/-! ## YouTubeDownloader (yt-dlp wrapper) -/

/-- The `quality_formats` dictionary of `YouTubeDownloader.download_video`,
as an association list in declaration order. -/
def quality_formats : List (String × String) :=
  [("best", "bestvideo[ext=mp4]+bestaudio[ext=m4a]/best[ext=mp4]/best"),
   ("1080p", "bestvideo[height<=1080][ext=mp4]+bestaudio[ext=m4a]/best[height<=1080]"),
   ("720p", "bestvideo[height<=720][ext=mp4]+bestaudio[ext=m4a]/best[height<=720]"),
   ("480p", "bestvideo[height<=480][ext=mp4]+bestaudio[ext=m4a]/best[height<=480]"),
   ("360p", "bestvideo[height<=360][ext=mp4]+bestaudio[ext=m4a]/best[height<=360]")]

/-- Association-list lookup, modelling Python `dict` key lookup. -/
def lookupStr : List (String × String) → String → Option String
  | [], _ => none
  | (k, v) :: rest, q => if q = k then some v else lookupStr rest q

/-- `format_spec = quality_formats.get(quality, quality_formats["720p"])`. -/
def format_spec (quality : String) : String :=
  match lookupStr quality_formats quality with
  | some f => f
  | none => (lookupStr quality_formats "720p").getD ""

/-- Result dictionary of `YouTubeDownloader.download_video`. -/
inductive DownloadResult where
  | success (video_path title : String) (duration : Int)
      (uploader description output_dir : String)
  | failure (error : String)
  deriving DecidableEq, Repr

/-- Everything `download_video` does after computing `format_spec`
(metadata fetch, download, on-disk path resolution) is delegated to
the external yt-dlp library; it is modelled as one oracle keyed by the
format-selection expression the code hands to it. -/
structure YdlOracle where
  run : String → String → DownloadResult

/-- `YouTubeDownloader.download_video` with `yt_dlp` as an oracle: the
supplied quality enters the computation only through `format_spec`. -/
def download_video (ydl : YdlOracle) (url : String) (quality : String) : DownloadResult :=
  ydl.run (format_spec quality) url

/-- The fields of the dictionary returned by
`YouTubeDownloader.get_video_info_url` on success. -/
structure YtInfo where
  title : String
  duration : Int
  uploader : String
  description : String
  view_count : Int
  like_count : Int
  upload_date : String
  deriving DecidableEq, Repr

/-- Result of `get_video_info_url`: the info dictionary, or the
`{"success": False, "error": ...}` dictionary from its `except`. -/
inductive YtInfoResult where
  | success (info : YtInfo)
  | failure (error : String)
  deriving DecidableEq, Repr

/-! ## AIAnalyzer (Groq wrapper) -/

/-- The dictionary returned by `AIAnalyzer.analyze_video`: either the
`{"error": ...}` dictionary (frame extraction produced no frames) or
the analysis dictionary with its two optional audio fields. -/
inductive AnalysisDict where
  | failed (msg : String)
  | done (visual_analysis : String) (frames : List String)
      (transcript : Option String) (audio_error : Option String)
  deriving DecidableEq, Repr

/-- Backend oracles read by the dispatcher and the AI analyzer.  Each
field stands for one external effect at its call site; `Except.error`
on the two network calls models a raised exception. -/
structure Env where
  groq_api_key : Option String
  analyzer_ctor_ok : Bool
  file_exists : String → Bool
  get_video_info_o : String → InfoResult
  extract_frames_o : String → Int → Option String → List String
  extract_audio_o : String → Option String → String
  split_video_o : String → Int → Option String → List String
  fetch_info_o : String → YtInfoResult
  download_o : String → Option String → String → DownloadResult
  analyze_frames_o : List String → String → Except String String
  transcribe_audio_o : String → Except String String

/-- One backend operation performed during a dispatch, for the trace. -/
inductive BCall where
  | getVideoInfo (video_path : String)
  | extractFrames (video_path : String) (num_frames : Int) (output_dir : Option String)
  | extractAudio (video_path : String) (output_path : Option String)
  | splitVideo (video_path : String) (segment_duration : Int) (output_dir : Option String)
  | fetchInfo (url : String)
  | download (url : String) (output_dir : Option String) (quality : String)
  | analyzeFrames (frames : List String) (prompt : String)
  | transcribe (audio_path : String)
  deriving DecidableEq, Repr

/-- `AIAnalyzer.analyze_video`: extract frames; error dictionary when
none came back; analyze them (a raised network exception propagates);
when `include_audio`, extract audio and — only if that produced a
path — transcribe it, a transcription exception being captured into
`audio_error` instead of propagating.  Returns the trace of backend
calls next to the outcome. -/
def analyze_video (env : Env) (video_path prompt : String)
    (num_frames : Int) (include_audio : Bool) :
    List BCall × Except String AnalysisDict :=
  let frames := env.extract_frames_o video_path num_frames none
  let tr0 := [BCall.extractFrames video_path num_frames none]
  if frames.isEmpty then
    (tr0, .ok (.failed "Failed to extract frames from video"))
  else
    let tr1 := tr0 ++ [BCall.analyzeFrames frames prompt]
    match env.analyze_frames_o frames prompt with
    | .error e => (tr1, .error e)
    | .ok visual =>
      if include_audio then
        let audio_path := env.extract_audio_o video_path none
        let tr2 := tr1 ++ [BCall.extractAudio video_path none]
        if strIsEmpty audio_path then
          (tr2, .ok (.done visual frames none none))
        else
          let tr3 := tr2 ++ [BCall.transcribe audio_path]
          match env.transcribe_audio_o audio_path with
          | .ok t => (tr3, .ok (.done visual frames (some t) none))
          | .error e => (tr3, .ok (.done visual frames none (some e)))
      else (tr1, .ok (.done visual frames none none))

/-! ## Tool dispatcher (`call_tool`) -/

/-- One `TextContent(type="text", text=...)` response item. -/
structure TextContent where
  type : String
  text : String
  deriving DecidableEq, Repr

/-- The argument bag of a tool invocation; absent keys are `none`. -/
structure Args where
  video_path : Option String := none
  num_frames : Option Int := none
  segment_duration : Option Int := none
  output_dir : Option String := none
  output_path : Option String := none
  url : Option String := none
  quality : Option String := none
  prompt : Option String := none
  deriving DecidableEq, Repr

/-- The four AI tool names gated on the credential. -/
def aiToolNames : List String :=
  ["analyze_video", "summarize_video", "transcribe_video", "analyze_video_complete"]

/-- `check_api_key`: the credential is present and nonempty. -/
def check_api_key (env : Env) : Bool :=
  pyTruthy env.groq_api_key

/-- `init_analyzer`: with a truthy key, construct the client (which may
itself fail); without one, report `False`. -/
def init_analyzer (env : Env) : Bool :=
  pyTruthy env.groq_api_key && env.analyzer_ctor_ok

/-- The fixed instructional message returned when an AI tool is called
without a usable credential. -/
def credErrorText : String :=
  "Error: GROQ_API_KEY environment variable is required for AI features.\n" ++
  "Set it with: export GROQ_API_KEY=your-key\n" ++
  "Or use FFmpeg-only tools: get_video_info, extract_video_frames, extract_video_audio, split_video"

/-- The success text of the `get_video_info` branch. -/
def videoInfoText (i : VideoInfo) : String :=
  "Video Information:\n- File: " ++ i.filename ++
  "\n- Duration: " ++ fmtFixed 2 i.duration ++ " seconds (" ++
  fmtFixed 1 (i.duration / 60) ++ " minutes)\n- Resolution: " ++
  toString i.width ++ "x" ++ toString i.height ++
  "\n- Video Codec: " ++ i.codec

/-- The success text of the `get_youtube_info` branch. -/
def ytInfoText (info : YtInfo) : String :=
  "YouTube Video Information:\n- Title: " ++ info.title ++
  "\n- Duration: " ++ toString info.duration ++ " seconds (" ++
  fmtFixed 1 ((info.duration : ℚ) / 60) ++ " minutes)\n- Uploader: " ++ info.uploader ++
  "\n- Views: " ++ fmtComma info.view_count ++
  "\n- Likes: " ++ fmtComma info.like_count ++
  "\n- Upload Date: " ++ info.upload_date ++
  "\n- Description: " ++ pyTake 200 info.description ++
  "...\n\nTo download this video, use: download_youtube_video"

/-- The success text of the `download_youtube_video` branch. -/
def downloadSuccessText (video_path title : String) (duration : Int) (uploader : String) : String :=
  let duration_min : ℚ := if duration ≠ 0 then (duration : ℚ) / 60 else 0
  "Successfully downloaded YouTube video!\n\nTitle: " ++ title ++
  "\nDuration: " ++ toString duration ++ " seconds (" ++
  fmtFixed 1 duration_min ++ " minutes)\nUploader: " ++ uploader ++
  "\nSaved to: " ++ video_path ++
  "\n\nYou can now analyze this video:\n- Extract frames: extract_video_frames" ++
  "\n- Extract audio: extract_video_audio\n- Get info: get_video_info" ++
  "\n- AI analysis: analyze_video (requires API key)"

/-- Default prompt of the `analyze_video` tool. -/
def defaultAnalyzePrompt : String :=
  "Describe this video in detail, including scenes, actions, objects, people, and context"

/-- Fixed prompt of the `summarize_video` tool. -/
def summarizePrompt : String :=
  "Analyze this video and provide a comprehensive summary:\n" ++
  "1. Main topic or subject\n2. Key events or actions in chronological order\n" ++
  "3. Setting and context\n4. Visual elements (objects, people, text visible)\n" ++
  "5. Overall narrative or message\n6. Important details worth noting"

/-- Fixed prompt of the `analyze_video_complete` tool. -/
def completePrompt : String :=
  "Analyze this video thoroughly. Describe:\n" ++
  "1. Visual scenes, settings, and environments\n2. Actions, movements, and events\n" ++
  "3. Objects, people, and visual elements\n4. Visual context and atmosphere"

/-- The routed body of `call_tool`: everything after the two prechecks.
Returns the list of backend operations performed and either the result
text (`Except.ok`) or a raised exception message (`Except.error`). -/
def call_tool_body (env : Env) (ai : Bool) (name : String) (args : Args)
    (video_path : String) : List BCall × Except String String :=
  if name = "get_video_info" then
    let info := env.get_video_info_o video_path
    let text := match info with
      | .err e _ => "Error: " ++ e
      | .ok i => videoInfoText i
    ([.getVideoInfo video_path], .ok text)
  else if name = "extract_video_frames" then
    let num_frames := min (args.num_frames.getD 5) 20
    let frames := env.extract_frames_o video_path num_frames args.output_dir
    let text :=
      if !frames.isEmpty then
        "Successfully extracted " ++ toString frames.length ++ " frames:\n" ++
          numberedList frames ++
          (if !check_api_key env then
            "\n\nYou can analyze these images with your AI model (Kimi)." else "")
      else "Error: Failed to extract frames from video."
    ([.extractFrames video_path num_frames args.output_dir], .ok text)
  else if name = "extract_video_audio" then
    let audio_file := env.extract_audio_o video_path args.output_path
    let text :=
      if !strIsEmpty audio_file then
        "Successfully extracted audio to:\n  " ++ audio_file ++
          (if check_api_key env then "\n\nYou can transcribe this with: transcribe_video" else "")
      else "Error: Failed to extract audio from video."
    ([.extractAudio video_path args.output_path], .ok text)
  else if name = "split_video" then
    let segment_duration := args.segment_duration.getD 60
    let segments := env.split_video_o video_path segment_duration args.output_dir
    let text :=
      if !segments.isEmpty then
        "Successfully split into " ++ toString segments.length ++ " segments (" ++
          toString segment_duration ++ "s each):\n" ++ numberedList segments
      else "Error: Failed to split video into segments."
    ([.splitVideo video_path segment_duration args.output_dir], .ok text)
  else if name = "get_youtube_info" then
    let url := args.url.getD ""
    if strIsEmpty url then ([], .ok "Error: YouTube URL is required")
    else
      let text := match env.fetch_info_o url with
        | .success info => ytInfoText info
        | .failure e => "Error: " ++ e
      ([.fetchInfo url], .ok text)
  else if name = "download_youtube_video" then
    let url := args.url.getD ""
    if strIsEmpty url then ([], .ok "Error: YouTube URL is required")
    else
      let quality := args.quality.getD "720p"
      let text := match env.download_o url args.output_dir quality with
        | .success video_path title duration uploader _ _ =>
          downloadSuccessText video_path title duration uploader
        | .failure e => "Error downloading video: " ++ e
      ([.download url args.output_dir quality], .ok text)
  else if name = "analyze_video" then
    let prompt := args.prompt.getD defaultAnalyzePrompt
    let num_frames := min (args.num_frames.getD 5) 10
    if ai then
      let (tr, res) := analyze_video env video_path prompt num_frames false
      match res with
      | .error e => (tr, .error e)
      | .ok (.failed msg) => (tr, .ok ("Error: " ++ msg))
      | .ok (.done visual frames _ _) =>
        (tr, .ok ("=== AI Video Analysis ===\n\n" ++ visual ++
          "\n\nAnalyzed " ++ toString frames.length ++ " frames."))
    else ([], .ok "Error: AI analyzer not available")
  else if name = "summarize_video" then
    let num_frames := min (args.num_frames.getD 8) 10
    if ai then
      let (tr, res) := analyze_video env video_path summarizePrompt num_frames false
      match res with
      | .error e => (tr, .error e)
      | .ok (.failed msg) => (tr, .ok ("Error: " ++ msg))
      | .ok (.done visual _ _ _) =>
        (tr, .ok ("=== Video Summary ===\n\n" ++ visual))
    else ([], .ok "Error: AI analyzer not available")
  else if name = "transcribe_video" then
    if ai then
      let audio_path := env.extract_audio_o video_path none
      if strIsEmpty audio_path then
        ([.extractAudio video_path none], .ok "Error: Failed to extract audio from video")
      else
        match env.transcribe_audio_o audio_path with
        | .ok t =>
          ([.extractAudio video_path none, .transcribe audio_path],
           .ok ("=== Audio Transcription ===\n\n" ++ t))
        | .error e =>
          ([.extractAudio video_path none, .transcribe audio_path],
           .ok ("Error transcribing audio: " ++ e))
    else ([], .ok "Error: AI analyzer not available")
  else if name = "analyze_video_complete" then
    let num_frames := min (args.num_frames.getD 5) 10
    if ai then
      let (tr, res) := analyze_video env video_path completePrompt num_frames true
      match res with
      | .error e => (tr, .error e)
      | .ok (.failed msg) => (tr, .ok ("Error: " ++ msg))
      | .ok (.done visual _ transcript audio_error) =>
        let base := "=== VISUAL ANALYSIS ===\n" ++ visual
        let text := match transcript with
          | some t => base ++ "\n\n=== AUDIO TRANSCRIPTION ===\n" ++ t
          | none => match audio_error with
            | some e => base ++ "\n\nNote: Audio analysis unavailable (" ++ e ++ ")"
            | none => base
        (tr, .ok text)
    else ([], .ok "Error: AI analyzer not available")
  else
    ([], .ok ("Unknown tool: " ++ name))

/-- The `call_tool` dispatcher.  `ai0` is the process-global
`ai_analyzer` state on entry (whether a client has been constructed);
the result carries the response items, the trace of backend
operations, and the global state on exit.  Mirrors the source: AI
credential gate first, then the `video_path` existence check, then
routing; the outer `except` renders any raised exception as
`"Error: <message>"`. -/
def call_tool (env : Env) (ai0 : Bool) (name : String) (args : Args) :
    List TextContent × List BCall × Bool :=
  if name ∈ aiToolNames && !(ai0 || init_analyzer env) then
    ([⟨"text", credErrorText⟩], [], ai0)
  else
    let ai := if name ∈ aiToolNames then true else ai0
    let video_path := args.video_path.getD ""
    if !strIsEmpty video_path && !env.file_exists video_path then
      ([⟨"text", "Error: Video file not found: " ++ video_path⟩], [], ai)
    else
      let (tr, res) := call_tool_body env ai name args video_path
      match res with
      | .ok t => ([⟨"text", t⟩], tr, ai)
      | .error e => ([⟨"text", "Error: " ++ e⟩], tr, ai)

/-- The ten tool names of the catalog, in declaration order. -/
def knownToolNames : List String :=
  ["get_video_info", "extract_video_frames", "extract_video_audio", "split_video",
   "get_youtube_info", "download_youtube_video", "analyze_video", "summarize_video",
   "transcribe_video", "analyze_video_complete"]

/-! ## Concrete environments for witnesses and counterexamples -/

/-- An environment with no credential where every external effect
fails: no file exists, every probe errors, the network is down. -/
def envNoKey : Env where
  groq_api_key := none
  analyzer_ctor_ok := false
  file_exists := fun _ => false
  get_video_info_o := fun p => .err "probe failed" p
  extract_frames_o := fun _ _ _ => []
  extract_audio_o := fun _ _ => ""
  split_video_o := fun _ _ _ => []
  fetch_info_o := fun _ => .failure "network down"
  download_o := fun _ _ _ => .failure "network down"
  analyze_frames_o := fun _ _ => .error "network down"
  transcribe_audio_o := fun _ => .error "network down"

/-- `envNoKey` with every file present and a one-segment split result. -/
def envSplit1 : Env :=
  { envNoKey with
    file_exists := fun _ => true
    split_video_o := fun _ _ _ => ["/v_segment_000.mp4"] }

/-- `envNoKey` with a credential, working client construction, every
file present, one extracted frame — and a network that still fails
(`analyze_frames` raises). -/
def envAiNetDown : Env :=
  { envNoKey with
    groq_api_key := some "k"
    analyzer_ctor_ok := true
    file_exists := fun _ => true
    extract_frames_o := fun _ _ _ => ["/f1.jpg"] }

/-- `envAiNetDown` with a working vision call and a working audio
extraction, but a transcription call that raises. -/
def envAiTranscribeFails : Env :=
  { envAiNetDown with
    analyze_frames_o := fun _ _ => .ok "A scene"
    extract_audio_o := fun _ _ => "/v_audio.mp3" }

/-- `envAiTranscribeFails` but audio extraction itself fails
(`extract_audio` returns the empty string). -/
def envAiNoAudio : Env :=
  { envAiTranscribeFails with
    extract_audio_o := fun _ _ => "" }

/-! ## Claim theorems -/

set_option maxRecDepth 10000

/-- C2: invoking any of the four AI tools when no credential is
present in the environment and no client has been constructed returns
the fixed instructional error text (naming the credential variable and
the four non-AI tools) and performs zero backend calls. -/
theorem ai_tool_no_credential_fixed_error (env : Env) (name : String) (args : Args)
    (hname : name ∈ aiToolNames) (hkey : env.groq_api_key = none) :
    call_tool env false name args = ([⟨"text", credErrorText⟩], [], false) := by
  have h1 : init_analyzer env = false := by
    simp [init_analyzer, hkey, pyTruthy]
  unfold call_tool
  simp [hname, h1]

/-- Witness for C2 at `analyze_video` in `envNoKey`. -/
theorem ai_tool_no_credential_fixed_error_witness :
    call_tool envNoKey false "analyze_video" {} = ([⟨"text", credErrorText⟩], [], false) :=
  ai_tool_no_credential_fixed_error envNoKey "analyze_video" {}
    (by simp [aiToolNames]) rfl

/-- C3 counterexample: on an AI tool with no credential, a nonexistent
`video_path` yields the credential error, not the file-not-found
text — so the file check is not uniform across video-path tools. -/
theorem video_path_check_preempted_by_ai_gate :
    (call_tool envNoKey false "analyze_video" { video_path := some "/missing.mp4" }).1 ≠
      [⟨"text", "Error: Video file not found: /missing.mp4"⟩] := by
  have h : (call_tool envNoKey false "analyze_video"
      { video_path := some "/missing.mp4" }).1 = [⟨"text", credErrorText⟩] := rfl
  rw [h]
  decide

/-- C3 (amended): whenever the AI-credential gate does not fire first
(the tool is not an AI tool, or a client is available), an invocation
whose nonempty `video_path` names a nonexistent file returns exactly
the file-not-found error and performs zero backend calls, uniformly
for every tool name. -/
theorem missing_video_path_uniform_error (env : Env) (ai0 : Bool) (name : String)
    (args : Args) (vp : String)
    (hvp : args.video_path = some vp) (hne : strIsEmpty vp = false)
    (hex : env.file_exists vp = false)
    (hgate : name ∈ aiToolNames → (ai0 || init_analyzer env) = true) :
    (call_tool env ai0 name args).1 =
      [⟨"text", "Error: Video file not found: " ++ vp⟩] ∧
    (call_tool env ai0 name args).2.1 = [] := by
  have hcond : (name ∈ aiToolNames && !(ai0 || init_analyzer env)) = false := by
    by_cases h : name ∈ aiToolNames
    · simp [h, hgate h]
    · simp [h]
  unfold call_tool
  rw [hcond]
  simp [hvp, hne, hex]

/-- Witness for C3 (amended): `get_video_info` on a missing file. -/
theorem missing_video_path_uniform_error_witness :
    (call_tool envNoKey false "get_video_info"
        { video_path := some "/missing.mp4" }).1 =
      [⟨"text", "Error: Video file not found: /missing.mp4"⟩] ∧
    (call_tool envNoKey false "get_video_info"
        { video_path := some "/missing.mp4" }).2.1 = [] :=
  missing_video_path_uniform_error envNoKey false "get_video_info"
    { video_path := some "/missing.mp4" } "/missing.mp4" rfl rfl rfl
    (by intro h; simp [aiToolNames] at h)

/-- C7 counterexample: an unknown tool name invoked with a nonexistent
`video_path` is answered by the file-not-found error, not by
`"Unknown tool: <name>"` — the unknown-tool reply is not universal over
argument bags. -/
theorem unknown_tool_masked_by_file_check :
    (call_tool envNoKey false "does_not_exist" { video_path := some "/missing.mp4" }).1 ≠
      [⟨"text", "Unknown tool: does_not_exist"⟩] := by
  have h : (call_tool envNoKey false "does_not_exist"
      { video_path := some "/missing.mp4" }).1 =
      [⟨"text", "Error: Video file not found: /missing.mp4"⟩] := rfl
  rw [h]
  decide

/-- C7 (amended): the dispatcher is total — every invocation, whatever
its name, argument bag, or backend behaviour, produces exactly one
text item; an unknown name whose invocation passes the file precheck
is answered with exactly `"Unknown tool: <name>"`; and a raised
backend exception is rendered as `"Error: <message>"`. -/
theorem dispatcher_never_faults :
    (∀ env ai0 name args, ∃ s, (call_tool env ai0 name args).1 = [⟨"text", s⟩]) ∧
    (∀ env ai0 name args, name ∉ knownToolNames →
      (strIsEmpty (args.video_path.getD "") = true ∨
        env.file_exists (args.video_path.getD "") = true) →
      (call_tool env ai0 name args).1 = [⟨"text", "Unknown tool: " ++ name⟩]) ∧
    (∀ env ai0 name args e,
      (name ∈ aiToolNames → (ai0 || init_analyzer env) = true) →
      (strIsEmpty (args.video_path.getD "") = true ∨
        env.file_exists (args.video_path.getD "") = true) →
      (call_tool_body env (if name ∈ aiToolNames then true else ai0) name args
          (args.video_path.getD "")).2 = .error e →
      (call_tool env ai0 name args).1 = [⟨"text", "Error: " ++ e⟩]) := by
  refine ⟨?_, ?_, ?_⟩
  · intro env ai0 name args
    unfold call_tool
    by_cases hg : (name ∈ aiToolNames && !(ai0 || init_analyzer env)) = true
    · rw [if_pos hg]
      exact ⟨credErrorText, rfl⟩
    · rw [if_neg hg]
      by_cases hf : (!strIsEmpty (args.video_path.getD "") &&
          !env.file_exists (args.video_path.getD "")) = true
      · rw [if_pos hf]
        exact ⟨_, rfl⟩
      · rw [if_neg hf]
        rcases hb : call_tool_body env (if name ∈ aiToolNames then true else ai0)
            name args (args.video_path.getD "") with ⟨tr, res⟩
        cases res with
        | ok t => exact ⟨t, by simp [hb]⟩
        | error e => exact ⟨"Error: " ++ e, by simp [hb]⟩
  · intro env ai0 name args hname hfile
    have hne : ∀ s ∈ knownToolNames, name ≠ s := by
      intro s hs he
      exact hname (he ▸ hs)
    have hai : name ∉ aiToolNames := by
      intro h
      apply hname
      simp only [aiToolNames, List.mem_cons, List.not_mem_nil, or_false] at h
      rcases h with rfl | rfl | rfl | rfl <;> simp [knownToolNames]
    have hgate : (name ∈ aiToolNames && !(ai0 || init_analyzer env)) = false := by
      simp [hai]
    have hfcond : (!strIsEmpty (args.video_path.getD "") &&
        !env.file_exists (args.video_path.getD "")) = false := by
      rcases hfile with h | h <;> simp [h]
    have hbody : ∀ ai, call_tool_body env ai
        name args (args.video_path.getD "") = ([], .ok ("Unknown tool: " ++ name)) := by
      intro ai
      have h0 : name ≠ "get_video_info" := hne _ (by simp [knownToolNames])
      have h1 : name ≠ "extract_video_frames" := hne _ (by simp [knownToolNames])
      have h2 : name ≠ "extract_video_audio" := hne _ (by simp [knownToolNames])
      have h3 : name ≠ "split_video" := hne _ (by simp [knownToolNames])
      have h4 : name ≠ "get_youtube_info" := hne _ (by simp [knownToolNames])
      have h5 : name ≠ "download_youtube_video" := hne _ (by simp [knownToolNames])
      have h6 : name ≠ "analyze_video" := hne _ (by simp [knownToolNames])
      have h7 : name ≠ "summarize_video" := hne _ (by simp [knownToolNames])
      have h8 : name ≠ "transcribe_video" := hne _ (by simp [knownToolNames])
      have h9 : name ≠ "analyze_video_complete" := hne _ (by simp [knownToolNames])
      unfold call_tool_body
      simp [h0, h1, h2, h3, h4, h5, h6, h7, h8, h9]
    unfold call_tool
    rw [hgate]
    simp only [Bool.false_eq_true, if_false]
    rw [if_neg (by simp [hfcond])]
    simp [hbody]
  · intro env ai0 name args e hgate hfile herr
    have hg : (name ∈ aiToolNames && !(ai0 || init_analyzer env)) = false := by
      by_cases h : name ∈ aiToolNames
      · simp [h, hgate h]
      · simp [h]
    have hfcond : (!strIsEmpty (args.video_path.getD "") &&
        !env.file_exists (args.video_path.getD "")) = false := by
      rcases hfile with h | h <;> simp [h]
    unfold call_tool
    rw [hg]
    simp only [Bool.false_eq_true, if_false]
    rw [if_neg (by simp [hfcond])]
    rcases hb : call_tool_body env (if name ∈ aiToolNames then true else ai0)
        name args (args.video_path.getD "") with ⟨tr, res⟩
    rw [hb] at herr
    simp only at herr
    cases res with
    | ok t => exact absurd herr (by simp)
    | error e2 =>
      have he2 : e2 = e := by simpa using herr
      subst he2
      simp [hb]

/-- Witness for C7 (amended) at concrete inputs: a routine call, an
unknown tool with an empty bag, and a network exception surfacing. -/
theorem dispatcher_never_faults_witness :
    (∃ s, (call_tool envNoKey false "get_video_info" {}).1 = [⟨"text", s⟩]) ∧
    ((call_tool envNoKey false "does_not_exist" {}).1 =
      [⟨"text", "Unknown tool: " ++ "does_not_exist"⟩]) ∧
    ((call_tool envAiNetDown true "analyze_video" { video_path := some "/v.mp4" }).1 =
      [⟨"text", "Error: " ++ "network down"⟩]) :=
  ⟨dispatcher_never_faults.1 envNoKey false "get_video_info" {},
   dispatcher_never_faults.2.1 envNoKey false "does_not_exist" {} (by decide) (Or.inl rfl),
   dispatcher_never_faults.2.2 envAiNetDown true "analyze_video"
     { video_path := some "/v.mp4" } "network down"
     (fun _ => rfl) (Or.inr rfl) rfl⟩

/-- C1 counterexample: `split_video` hands an out-of-range
`segment_duration = 500` (declared range [10, 300]) straight to the
backend operation instead of clamping it into the range. -/
theorem segment_duration_passed_unclamped :
    (call_tool envSplit1 false "split_video"
        { video_path := some "/v.mp4", segment_duration := some 500 }).2.1 =
      [BCall.splitVideo "/v.mp4" 500 none] ∧ ¬((500 : Int) ≤ 300) :=
  ⟨rfl, by decide⟩

/-- On any invocation where neither precheck fires, the trace of
`call_tool` is the trace of its routed body. -/
theorem call_tool_trace_eq (env : Env) (ai0 : Bool) (name : String) (args : Args)
    (hgate : (name ∈ aiToolNames && !(ai0 || init_analyzer env)) = false)
    (hfcond : (!strIsEmpty (args.video_path.getD "") &&
      !env.file_exists (args.video_path.getD "")) = false) :
    (call_tool env ai0 name args).2.1 =
      (call_tool_body env (if name ∈ aiToolNames then true else ai0) name args
        (args.video_path.getD "")).1 := by
  unfold call_tool
  rw [hgate]
  simp only [Bool.false_eq_true, if_false]
  rw [if_neg (by simp [hfcond])]
  rcases hb : call_tool_body env (if name ∈ aiToolNames then true else ai0) name args
      (args.video_path.getD "") with ⟨tr, res⟩
  cases res <;> simp [hb]

/-- The trace of `AIAnalyzer.analyze_video` always starts with the
frame-extraction call carrying the given frame count. -/
theorem analyze_video_trace_head (env : Env) (vp prompt : String) (n : Int) (ia : Bool) :
    ∃ rest, (analyze_video env vp prompt n ia).1 =
      BCall.extractFrames vp n none :: rest := by
  cases h1 : (env.extract_frames_o vp n none).isEmpty with
  | true => exact ⟨[], by simp [analyze_video, h1]⟩
  | false =>
    cases h2 : env.analyze_frames_o (env.extract_frames_o vp n none) prompt with
    | error e =>
      exact ⟨[.analyzeFrames (env.extract_frames_o vp n none) prompt],
        by simp [analyze_video, h1, h2]⟩
    | ok visual =>
      cases ia with
      | false =>
        exact ⟨[.analyzeFrames (env.extract_frames_o vp n none) prompt],
          by simp [analyze_video, h1, h2]⟩
      | true =>
        cases h3 : strIsEmpty (env.extract_audio_o vp none) with
        | true =>
          exact ⟨[.analyzeFrames (env.extract_frames_o vp n none) prompt,
              .extractAudio vp none],
            by simp [analyze_video, h1, h2, h3]⟩
        | false =>
          cases h4 : env.transcribe_audio_o (env.extract_audio_o vp none) with
          | ok t =>
            exact ⟨[.analyzeFrames (env.extract_frames_o vp n none) prompt,
                .extractAudio vp none, .transcribe (env.extract_audio_o vp none)],
              by simp [analyze_video, h1, h2, h3, h4]⟩
          | error e =>
            exact ⟨[.analyzeFrames (env.extract_frames_o vp n none) prompt,
                .extractAudio vp none, .transcribe (env.extract_audio_o vp none)],
              by simp [analyze_video, h1, h2, h3, h4]⟩

/-- The `analyze_video` tool branch delegates to
`AIAnalyzer.analyze_video` with the clamped frame count. -/
theorem call_tool_body_analyze_trace (env : Env) (args : Args) (vp : String) :
    (call_tool_body env true "analyze_video" args vp).1 =
      (analyze_video env vp (args.prompt.getD defaultAnalyzePrompt)
        (min (args.num_frames.getD 5) 10) false).1 := by
  rcases h : analyze_video env vp (args.prompt.getD defaultAnalyzePrompt)
      (min (args.num_frames.getD 5) 10) false with ⟨tr, res⟩
  cases res with
  | error e => simp [call_tool_body, h]
  | ok d => cases d <;> simp [call_tool_body, h]

/-- The `summarize_video` tool branch delegates to
`AIAnalyzer.analyze_video` with the clamped frame count. -/
theorem call_tool_body_summarize_trace (env : Env) (args : Args) (vp : String) :
    (call_tool_body env true "summarize_video" args vp).1 =
      (analyze_video env vp summarizePrompt
        (min (args.num_frames.getD 8) 10) false).1 := by
  rcases h : analyze_video env vp summarizePrompt
      (min (args.num_frames.getD 8) 10) false with ⟨tr, res⟩
  cases res with
  | error e => simp [call_tool_body, h]
  | ok d => cases d <;> simp [call_tool_body, h]

/-- The `analyze_video_complete` tool branch delegates to
`AIAnalyzer.analyze_video` with the clamped frame count and audio. -/
theorem call_tool_body_complete_trace (env : Env) (args : Args) (vp : String) :
    (call_tool_body env true "analyze_video_complete" args vp).1 =
      (analyze_video env vp completePrompt
        (min (args.num_frames.getD 5) 10) true).1 := by
  rcases h : analyze_video env vp completePrompt
      (min (args.num_frames.getD 5) 10) true with ⟨tr, res⟩
  cases res with
  | error e => simp [call_tool_body, h]
  | ok d => cases d <;> simp [call_tool_body, h]

/-- C1 (amended): out-of-range numeric arguments are never rejected,
but clamping is one-sided and partial: each `num_frames` is capped at
its declared maximum via `min(value, max)` and never raised to its
declared minimum, while `split_video`'s `segment_duration` is passed
to the backend entirely unclamped. -/
theorem numeric_argument_clamping :
    (∀ env ai0 args v, args.num_frames = some v →
      (strIsEmpty (args.video_path.getD "") = true ∨
        env.file_exists (args.video_path.getD "") = true) →
      (call_tool env ai0 "extract_video_frames" args).2.1 =
        [.extractFrames (args.video_path.getD "") (min v 20) args.output_dir]) ∧
    (∀ env ai0 args v, args.segment_duration = some v →
      (strIsEmpty (args.video_path.getD "") = true ∨
        env.file_exists (args.video_path.getD "") = true) →
      (call_tool env ai0 "split_video" args).2.1 =
        [.splitVideo (args.video_path.getD "") v args.output_dir]) ∧
    (∀ env args v, args.num_frames = some v →
      (strIsEmpty (args.video_path.getD "") = true ∨
        env.file_exists (args.video_path.getD "") = true) →
      ∃ rest, (call_tool env true "analyze_video" args).2.1 =
        BCall.extractFrames (args.video_path.getD "") (min v 10) none :: rest) ∧
    (∀ env args v, args.num_frames = some v →
      (strIsEmpty (args.video_path.getD "") = true ∨
        env.file_exists (args.video_path.getD "") = true) →
      ∃ rest, (call_tool env true "summarize_video" args).2.1 =
        BCall.extractFrames (args.video_path.getD "") (min v 10) none :: rest) ∧
    (∀ env args v, args.num_frames = some v →
      (strIsEmpty (args.video_path.getD "") = true ∨
        env.file_exists (args.video_path.getD "") = true) →
      ∃ rest, (call_tool env true "analyze_video_complete" args).2.1 =
        BCall.extractFrames (args.video_path.getD "") (min v 10) none :: rest) := by
  have hfc : ∀ (env : Env) (args : Args),
      (strIsEmpty (args.video_path.getD "") = true ∨
        env.file_exists (args.video_path.getD "") = true) →
      (!strIsEmpty (args.video_path.getD "") &&
        !env.file_exists (args.video_path.getD "")) = false := by
    intro env args h
    rcases h with h | h <;> simp [h]
  refine ⟨?_, ?_, ?_, ?_, ?_⟩
  · intro env ai0 args v hv hfile
    rw [call_tool_trace_eq env ai0 "extract_video_frames" args
      (by simp [aiToolNames]) (hfc env args hfile)]
    have hb : (call_tool_body env
        (if "extract_video_frames" ∈ aiToolNames then true else ai0)
        "extract_video_frames" args (args.video_path.getD "")).1 =
        [.extractFrames (args.video_path.getD "")
          (min (args.num_frames.getD 5) 20) args.output_dir] := rfl
    rw [hb, hv]
    rfl
  · intro env ai0 args v hv hfile
    rw [call_tool_trace_eq env ai0 "split_video" args
      (by simp [aiToolNames]) (hfc env args hfile)]
    have hb : (call_tool_body env
        (if "split_video" ∈ aiToolNames then true else ai0)
        "split_video" args (args.video_path.getD "")).1 =
        [.splitVideo (args.video_path.getD "")
          (args.segment_duration.getD 60) args.output_dir] := rfl
    rw [hb, hv]
    rfl
  · intro env args v hv hfile
    rw [call_tool_trace_eq env true "analyze_video" args
      (by simp) (hfc env args hfile)]
    have hif : (if "analyze_video" ∈ aiToolNames then true else true) = true := by
      simp
    rw [hif, call_tool_body_analyze_trace, hv]
    exact analyze_video_trace_head env (args.video_path.getD "")
      (args.prompt.getD defaultAnalyzePrompt) (min v 10) false
  · intro env args v hv hfile
    rw [call_tool_trace_eq env true "summarize_video" args
      (by simp) (hfc env args hfile)]
    have hif : (if "summarize_video" ∈ aiToolNames then true else true) = true := by
      simp
    rw [hif, call_tool_body_summarize_trace, hv]
    exact analyze_video_trace_head env (args.video_path.getD "")
      summarizePrompt (min v 10) false
  · intro env args v hv hfile
    rw [call_tool_trace_eq env true "analyze_video_complete" args
      (by simp) (hfc env args hfile)]
    have hif : (if "analyze_video_complete" ∈ aiToolNames then true else true) = true := by
      simp
    rw [hif, call_tool_body_complete_trace, hv]
    exact analyze_video_trace_head env (args.video_path.getD "")
      completePrompt (min v 10) true

/-- Witness for C1 (amended): `num_frames = 50` is capped to 20 and to
10, `num_frames = 0` is passed below the declared minimum, and
`segment_duration = 500` goes through unclamped. -/
theorem numeric_argument_clamping_witness :
    ((call_tool envSplit1 false "extract_video_frames"
        { video_path := some "/v.mp4", num_frames := some 50 }).2.1 =
      [.extractFrames "/v.mp4" (min 50 20) none]) ∧
    ((call_tool envSplit1 false "extract_video_frames"
        { video_path := some "/v.mp4", num_frames := some 0 }).2.1 =
      [.extractFrames "/v.mp4" (min 0 20) none]) ∧
    ((call_tool envSplit1 false "split_video"
        { video_path := some "/v.mp4", segment_duration := some 500 }).2.1 =
      [.splitVideo "/v.mp4" 500 none]) ∧
    (∃ rest, (call_tool envAiNetDown true "analyze_video"
        { video_path := some "/v.mp4", num_frames := some 50 }).2.1 =
      BCall.extractFrames "/v.mp4" (min 50 10) none :: rest) :=
  ⟨numeric_argument_clamping.1 envSplit1 false
      { video_path := some "/v.mp4", num_frames := some 50 } 50 rfl (Or.inr rfl),
   numeric_argument_clamping.1 envSplit1 false
      { video_path := some "/v.mp4", num_frames := some 0 } 0 rfl (Or.inr rfl),
   numeric_argument_clamping.2.1 envSplit1 false
      { video_path := some "/v.mp4", segment_duration := some 500 } 500 rfl (Or.inr rfl),
   numeric_argument_clamping.2.2.1 envAiNetDown
      { video_path := some "/v.mp4", num_frames := some 50 } 50 rfl (Or.inr rfl)⟩

/-- C4: for any metadata with positive duration and any frame count in
[1, 20], `extract_frames` requests exactly the timestamps
`i * (duration / (count + 1))` for `i = 1..count`; they are strictly
increasing and all lie strictly inside `(0, duration)`. -/
theorem extract_frames_timestamps_interior (info : VideoInfo) (count : ℕ)
    (h1 : 1 ≤ count) (h20 : count ≤ 20) (hd : 0 < info.duration) :
    extract_frames_requests (.ok info) count =
      (List.range count).map
        (fun (i : ℕ) => ((i : ℚ) + 1) * (info.duration / ((count : ℚ) + 1))) ∧
    (extract_frames_requests (.ok info) count).Pairwise (· < ·) ∧
    ∀ t ∈ extract_frames_requests (.ok info) count, 0 < t ∧ t < info.duration := by
  have _hcount : count ≤ 20 := h20
  have hpos : (0 : ℚ) < (count : ℚ) + 1 := by positivity
  have hc : (0 : ℚ) < info.duration / ((count : ℚ) + 1) := div_pos hd hpos
  have hreq : extract_frames_requests (.ok info) count =
      (List.range count).map
        (fun (i : ℕ) => ((i : ℚ) + 1) * (info.duration / ((count : ℚ) + 1))) := by
    show (if info.duration ≤ 0 then ([] : List ℚ)
        else frame_timestamps info.duration count) = _
    rw [if_neg (not_le.mpr hd)]
    rfl
  refine ⟨hreq, ?_, ?_⟩
  · rw [hreq, List.pairwise_map]
    refine (List.pairwise_lt_range count).imp ?_
    intro a b hab
    have hab2 : (a : ℚ) + 1 < (b : ℚ) + 1 := by
      have h3 : (a : ℚ) < b := by exact_mod_cast hab
      linarith
    exact mul_lt_mul_of_pos_right hab2 hc
  · rw [hreq]
    intro t ht
    rcases List.mem_map.mp ht with ⟨i, hi, rfl⟩
    have hi20 : i < count := List.mem_range.mp hi
    constructor
    · positivity
    · have hlt : ((i : ℚ) + 1) < (count : ℚ) + 1 := by
        have : (i : ℚ) < (count : ℚ) := by exact_mod_cast hi20
        linarith
      calc ((i : ℚ) + 1) * (info.duration / ((count : ℚ) + 1))
          < ((count : ℚ) + 1) * (info.duration / ((count : ℚ) + 1)) :=
            mul_lt_mul_of_pos_right hlt hc
        _ = info.duration := by
            field_simp

/-- Witness for C4 at a 10-second clip and three frames. -/
theorem extract_frames_timestamps_interior_witness :
    extract_frames_requests (.ok ⟨10, 1280, 720, "h264", "/clip.mp4", "clip.mp4"⟩) 3 =
      (List.range 3).map (fun (i : ℕ) => ((i : ℚ) + 1) * ((10 : ℚ) / ((3 : ℚ) + 1))) ∧
    (extract_frames_requests (.ok ⟨10, 1280, 720, "h264", "/clip.mp4", "clip.mp4"⟩) 3).Pairwise (· < ·) ∧
    ∀ t ∈ extract_frames_requests (.ok ⟨10, 1280, 720, "h264", "/clip.mp4", "clip.mp4"⟩) 3,
      0 < t ∧ t < (10 : ℚ) :=
  extract_frames_timestamps_interior ⟨10, 1280, 720, "h264", "/clip.mp4", "clip.mp4"⟩ 3
    (by norm_num) (by norm_num) (by norm_num)

/-- C5 counterexample: a duration probe that exits 0 but prints
unparsable output (ffprobe prints `N/A` on some containers) raises in
`float()` and turns the whole `get_video_info` call into the error
dictionary instead of degrading the field to 0. -/
theorem unparsable_probe_output_fails_whole_call :
    (get_video_info ⟨0, "N/A"⟩ ⟨0, "1280x720"⟩ ⟨0, "h264"⟩ "/clip.mp4").isErr = true := rfl

/-- C5 (amended): probes that fail by non-zero exit degrade their
fields to the documented defaults (duration 0, size 0x0, codec
"unknown") without failing the call; but a zero-exit duration probe
whose output does not parse as a float fails the whole call. -/
theorem get_video_info_probe_degradation :
    (∀ durP sizeP codecP p, durP.returncode ≠ 0 → sizeP.returncode ≠ 0 →
      get_video_info durP sizeP codecP p =
        .ok ⟨0, 0, 0,
          (if codecP.returncode = 0 then pyStrip codecP.stdout else "unknown"),
          p, pathName p⟩) ∧
    (∀ durP sizeP codecP p, durP.returncode = 0 →
      parsePyFloat (pyStrip durP.stdout) = none →
      (get_video_info durP sizeP codecP p).isErr = true) := by
  constructor
  · intro durP sizeP codecP p hd hs
    unfold get_video_info
    rw [if_neg hd]
    simp [hs]
  · intro durP sizeP codecP p hd hparse
    unfold get_video_info
    rw [if_pos hd, hparse]
    rfl

/-- Witness for C5 (amended): all probes exit 1; and the `N/A` case. -/
theorem get_video_info_probe_degradation_witness :
    (get_video_info ⟨1, ""⟩ ⟨1, ""⟩ ⟨1, ""⟩ "/a/clip.mp4" =
      .ok ⟨0, 0, 0,
        (if (1 : Int) = 0 then pyStrip "" else "unknown"),
        "/a/clip.mp4", pathName "/a/clip.mp4"⟩) ∧
    ((get_video_info ⟨0, "N/A\n"⟩ ⟨1, ""⟩ ⟨1, ""⟩ "/a/clip.mp4").isErr = true) :=
  ⟨get_video_info_probe_degradation.1 ⟨1, ""⟩ ⟨1, ""⟩ ⟨1, ""⟩ "/a/clip.mp4"
      (by decide) (by decide),
   get_video_info_probe_degradation.2 ⟨0, "N/A\n"⟩ ⟨1, ""⟩ ⟨1, ""⟩ "/a/clip.mp4"
      rfl rfl⟩

/-- C6 counterexample: when audio extraction itself fails
(`extract_audio` returns an empty path), `analyze_video` with
`include_audio=true` returns the analysis with `audio_error` absent
(`none`), not a non-empty `audio_error`. -/
theorem audio_extraction_failure_sets_no_audio_error :
    (analyze_video envAiNoAudio "/v.mp4" "p" 5 true).2 =
      .ok (.done "A scene" ["/f1.jpg"] none none) := rfl

/-- C6 (amended): with `include_audio=true`, a failure of the
transcription call is captured into a non-empty `audio_error` next to
the visual analysis; a failure of audio extraction itself silently
yields the visual analysis with both audio fields absent; in neither
case does the whole analysis fail. -/
theorem analyze_video_audio_best_effort :
    (∀ env vp prompt n visual e,
      (env.extract_frames_o vp n none).isEmpty = false →
      env.analyze_frames_o (env.extract_frames_o vp n none) prompt = .ok visual →
      strIsEmpty (env.extract_audio_o vp none) = false →
      env.transcribe_audio_o (env.extract_audio_o vp none) = .error e →
      (analyze_video env vp prompt n true).2 =
        .ok (.done visual (env.extract_frames_o vp n none) none (some e))) ∧
    (∀ env vp prompt n visual,
      (env.extract_frames_o vp n none).isEmpty = false →
      env.analyze_frames_o (env.extract_frames_o vp n none) prompt = .ok visual →
      strIsEmpty (env.extract_audio_o vp none) = true →
      (analyze_video env vp prompt n true).2 =
        .ok (.done visual (env.extract_frames_o vp n none) none none)) := by
  constructor
  · intro env vp prompt n visual e h1 h2 h3 h4
    simp [analyze_video, h1, h2, h3, h4]
  · intro env vp prompt n visual h1 h2 h3
    simp [analyze_video, h1, h2, h3]

/-- Witness for C6 (amended) in the two concrete environments. -/
theorem analyze_video_audio_best_effort_witness :
    ((analyze_video envAiTranscribeFails "/v.mp4" "p" 5 true).2 =
      .ok (.done "A scene" ["/f1.jpg"] none (some "network down"))) ∧
    ((analyze_video envAiNoAudio "/v2.mp4" "p" 5 true).2 =
      .ok (.done "A scene" ["/f1.jpg"] none none)) :=
  ⟨analyze_video_audio_best_effort.1 envAiTranscribeFails "/v.mp4" "p" 5
      "A scene" "network down" rfl rfl rfl rfl,
   analyze_video_audio_best_effort.2 envAiNoAudio "/v2.mp4" "p" 5 "A scene"
      rfl rfl rfl⟩

/-- C8: `split_video` returns an empty sequence without invoking the
segmenting command when the metadata probe errored or reported
duration ≤ 0, and whenever it returns segment paths they are sorted
lexicographically. -/
theorem split_video_guard_and_sorted :
    (∀ e pth listing vp sd od,
      split_video (.err e pth) listing vp sd od = ([], none)) ∧
    (∀ (info : VideoInfo) listing vp sd od, info.duration ≤ 0 →
      split_video (.ok info) listing vp sd od = ([], none)) ∧
    (∀ info listing vp sd od,
      (split_video info listing vp sd od).1.Sorted
        (fun a b => pyStrLe a b = true)) := by
  refine ⟨fun e pth listing vp sd od => rfl, ?_, ?_⟩
  · intro info listing vp sd od h
    simp [split_video, h]
  · intro info listing vp sd od
    rcases info with ⟨e, pth⟩ | i
    · simp [split_video]
    · by_cases h : i.duration ≤ 0
      · simp [split_video, h]
      · simp only [split_video, if_neg h]
        exact sorted_pySorted _

/-- Witness for C8: a failed probe, a zero duration, and an unsorted
listing that comes back sorted. -/
theorem split_video_guard_and_sorted_witness :
    (split_video (.err "probe failed" "/v.mp4") ["x.mp4"] "/v.mp4" 60 "/d" =
      ([], none)) ∧
    (split_video (.ok ⟨0, 0, 0, "unknown", "/v.mp4", "v.mp4"⟩)
      ["x.mp4"] "/v.mp4" 60 "/d" = ([], none)) ∧
    ((split_video (.ok ⟨10, 1280, 720, "h264", "/v.mp4", "v.mp4"⟩)
        ["v_segment_001.mp4", "v_segment_000.mp4"] "/v.mp4" 60 "/d").1.Sorted
      (fun a b => pyStrLe a b = true)) :=
  ⟨split_video_guard_and_sorted.1 "probe failed" "/v.mp4" ["x.mp4"] "/v.mp4" 60 "/d",
   split_video_guard_and_sorted.2.1 ⟨0, 0, 0, "unknown", "/v.mp4", "v.mp4"⟩
     ["x.mp4"] "/v.mp4" 60 "/d" (by norm_num),
   split_video_guard_and_sorted.2.2 (.ok ⟨10, 1280, 720, "h264", "/v.mp4", "v.mp4"⟩)
     ["v_segment_001.mp4", "v_segment_000.mp4"] "/v.mp4" 60 "/d"⟩

/-- `String.append` is associative (the underlying char lists are). -/
theorem string_append_assoc (a b c : String) : a ++ b ++ c = a ++ (b ++ c) := by
  cases a with | mk x =>
  cases b with | mk y =>
  cases c with | mk z =>
  show String.mk ((x ++ y) ++ z) = String.mk (x ++ (y ++ z))
  rw [List.append_assoc]

/-- The literal `get_video_info` success-response template as the spec
states it (§6), assembled label by label; refinement target compared
against the dispatcher's output. -/
def spec_video_info_template (filename : String) (duration : ℚ)
    (width height : Int) (codec : String) : String :=
  "Video Information:" ++
  "\n- File: " ++ filename ++
  "\n- Duration: " ++ fmtFixed 2 duration ++ " seconds (" ++
    fmtFixed 1 (duration / 60) ++ " minutes)" ++
  "\n- Resolution: " ++ toString width ++ "x" ++ toString height ++
  "\n- Video Codec: " ++ codec

/-- C9: every successful `get_video_info` dispatch renders exactly the
spec's literal template, with its fixed field order and labels. -/
theorem get_video_info_response_matches_template (env : Env) (ai0 : Bool)
    (args : Args) (info : VideoInfo)
    (hfile : env.file_exists (args.video_path.getD "") = true)
    (hinfo : env.get_video_info_o (args.video_path.getD "") = .ok info) :
    (call_tool env ai0 "get_video_info" args).1 =
      [⟨"text", spec_video_info_template info.filename info.duration
          info.width info.height info.codec⟩] := by
  unfold call_tool
  rw [if_neg (by simp [aiToolNames])]
  rw [if_neg (by simp [hfile])]
  simp [call_tool_body, hinfo, videoInfoText, spec_video_info_template,
    string_append_assoc]

/-- Witness for C9 on a 10-second 1280x720 h264 clip. -/
theorem get_video_info_response_matches_template_witness :
    (call_tool ({ envNoKey with
        file_exists := fun _ => true
        get_video_info_o := fun p =>
          .ok ⟨10, 1280, 720, "h264", p, "clip.mp4"⟩ }) false "get_video_info"
      { video_path := some "/clip.mp4" }).1 =
      [⟨"text", spec_video_info_template "clip.mp4" 10 1280 720 "h264"⟩] :=
  get_video_info_response_matches_template
    ({ envNoKey with
      file_exists := fun _ => true
      get_video_info_o := fun p => .ok ⟨10, 1280, 720, "h264", p, "clip.mp4"⟩ })
    false { video_path := some "/clip.mp4" }
    ⟨10, 1280, 720, "h264", "/clip.mp4", "clip.mp4"⟩ rfl rfl

/-- C10: any quality string outside the declared enum falls back to the
`720p` format selector, so the download behaves exactly as with
`quality = "720p"`; the value is never rejected. -/
theorem unknown_quality_uses_720p_selector (ydl : YdlOracle) (url quality : String)
    (h : quality ∉ ["360p", "480p", "720p", "1080p", "best"]) :
    download_video ydl url quality = download_video ydl url "720p" := by
  simp only [List.mem_cons, List.not_mem_nil, or_false, not_or] at h
  obtain ⟨h1, h2, h3, h4, h5⟩ := h
  unfold download_video format_spec quality_formats
  simp [lookupStr, h1, h2, h3, h4, h5]

/-- Witness for C10 at the unknown quality `"4k"`. -/
theorem unknown_quality_uses_720p_selector_witness :
    download_video ⟨fun fs u => .failure (fs ++ u)⟩ "https://y.t/w" "4k" =
      download_video ⟨fun fs u => .failure (fs ++ u)⟩ "https://y.t/w" "720p" :=
  unknown_quality_uses_720p_selector ⟨fun fs u => .failure (fs ++ u)⟩
    "https://y.t/w" "4k" (by decide)

end VideoMcp
